import Mathlib

/-!
Shallow embedding of the booking-and-commerce backend (`src/main.py`,
`src/schemas.py`) in Lean 4, together with theorems settling the
specification claims about the appointment booking conflict check, the
listing endpoint, the public-document rendering (`to_public`) and the
checkout amount computation.

The persistence layer (`database.py`: `db`, `create_document`,
`get_documents`) is not part of the provided sources; those primitives are
modelled from the spec, which describes the store as "a storage interface
with single-record insert/find operations" whose insert returns the
generated identity.  MongoDB documents are embedded as association lists
of string keys and a small value universe.
-/

namespace Booking

/-- A Python `datetime` value (tz-naive, microsecond = 0), the only shape
this backend would ever store. -/
structure PyDateTime where
  year : Nat
  month : Nat
  day : Nat
  hour : Nat
  minute : Nat
  second : Nat
deriving DecidableEq, Repr

/-- Zero-pad a numeral to two digits, as Python `datetime.isoformat` does. -/
def pad2 (n : Nat) : String :=
  if n < 10 then "0" ++ toString n else toString n

/-- Zero-pad a year to four digits, as Python `datetime.isoformat` does. -/
def pad4 (n : Nat) : String :=
  if n < 10 then "000" ++ toString n
  else if n < 100 then "00" ++ toString n
  else if n < 1000 then "0" ++ toString n
  else toString n

/-- Python `datetime.isoformat()` for a tz-naive datetime with zero
microseconds: `YYYY-MM-DDTHH:MM:SS`. -/
def PyDateTime.isoformat (t : PyDateTime) : String :=
  pad4 t.year ++ "-" ++ pad2 t.month ++ "-" ++ pad2 t.day ++ "T" ++
    pad2 t.hour ++ ":" ++ pad2 t.minute ++ ":" ++ pad2 t.second

/-- `OrderItem` (src/schemas.py lines 51-55). -/
structure OrderItem where
  service_id : String
  service_title : String
  quantity : Int
  price_cents : Int
deriving DecidableEq, Repr

/-- The universe of values a stored document field may hold in this
backend: strings, Python ints, ObjectIds (abstracted to the `Nat` that
generated them), datetimes, embedded order-item arrays, and `None`. -/
inductive Value where
  | str : String → Value
  | int : Int → Value
  | oid : Nat → Value
  | dt : PyDateTime → Value
  | items : List OrderItem → Value
  | none : Value
deriving DecidableEq, Repr

/-- The string form of a generated ObjectId, as `str(ObjectId)` surfaces
it; the identity is opaque, so any injective rendering is faithful. -/
def oidStr (n : Nat) : String := toString n

/-- Python `str()` on a stored value, as used by
`d["id"] = str(d.pop("_id"))` in `to_public` (src/main.py line 72). -/
def pyStr : Value → String
  | .str s => s
  | .int n => toString n
  | .oid n => oidStr n
  | .dt t =>
      pad4 t.year ++ "-" ++ pad2 t.month ++ "-" ++ pad2 t.day ++ " " ++
        pad2 t.hour ++ ":" ++ pad2 t.minute ++ ":" ++ pad2 t.second
  | .items _ => ""
  | .none => "None"

/-- A MongoDB document: an association list of field names to values
(Python dicts have unique keys; theorems that need uniqueness assume it). -/
abbrev Doc := List (String × Value)

/-- First-match field lookup in a document (dict indexing). -/
def dget (d : Doc) (k : String) : Option Value :=
  match d with
  | [] => Option.none
  | (k', v) :: rest => if k' = k then some v else dget rest k

/-- Dict key-membership test (`"_id" in d`). -/
def dmem (d : Doc) (k : String) : Bool :=
  match d with
  | [] => false
  | (k', _) :: rest => k' = k || dmem rest k

/-- Dict deletion (`d.pop(k)` discards the entry for `k`). -/
def dremove (d : Doc) (k : String) : Doc :=
  d.filter (fun kv => kv.1 ≠ k)

/-- Dict assignment `d[k] = v`: replaces the value in place when the key
exists, appends a new last entry otherwise. -/
def dset (d : Doc) (k : String) (v : Value) : Doc :=
  if dmem d k then d.map (fun kv => if kv.1 = k then (k, v) else kv)
  else d ++ [(k, v)]

/-- A MongoDB equality filter: the document matches when every filter
field is present with exactly the given value. -/
abbrev Filter := List (String × Value)

/-- Whether a document matches an equality filter. -/
def matchesFilter (filt : Filter) (d : Doc) : Bool :=
  filt.all (fun kv => dget d kv.1 = some kv.2)

/-- The collections this backend touches. -/
inductive Coll where
  | user
  | service
  | appointment
  | order
deriving DecidableEq, Repr

/-- The database: one document list per collection (in insertion order,
as an unsorted MongoDB find returns them) plus the generator state for
fresh ObjectIds. -/
structure DB where
  user : List Doc
  service : List Doc
  appointment : List Doc
  order : List Doc
  nextId : Nat
deriving DecidableEq, Repr

/-- The documents of one collection. -/
def DB.coll (db : DB) : Coll → List Doc
  | .user => db.user
  | .service => db.service
  | .appointment => db.appointment
  | .order => db.order

/-- Append a freshly inserted document to one collection. -/
def DB.insert (db : DB) : Coll → Doc → DB
  | .user, d => { db with user := db.user ++ [d] }
  | .service, d => { db with service := db.service ++ [d] }
  | .appointment, d => { db with appointment := db.appointment ++ [d] }
  | .order, d => { db with order := db.order ++ [d] }

/-- `db[coll].find_one(filt)`: the first stored document matching the
filter, if any (pymongo semantics on an unsorted collection). -/
def find_one (db : DB) (c : Coll) (filt : Filter) : Option Doc :=
  (db.coll c).find? (matchesFilter filt)

/-- Modelled from the spec: `get_documents` of the absent `database.py` —
the find operation of the storage interface; returns the collection's
documents matching the filter, in stored order. -/
def get_documents (db : DB) (c : Coll) (filt : Filter) : List Doc :=
  (db.coll c).filter (matchesFilter filt)

/-- Modelled from the spec: `create_document` of the absent `database.py`
— the single-record insert of the storage interface; persists the model's
fields under a freshly generated identity and returns that identity. -/
def create_document (db : DB) (c : Coll) (fields : List (String × Value)) :
    String × DB :=
  (oidStr db.nextId,
    { db.insert c (("_id", Value.oid db.nextId) :: fields) with
        nextId := db.nextId + 1 })

/-- Python truthiness of an optional document (`if conflict:`):
`None` and the empty dict are falsy. -/
def truthyDoc (o : Option Doc) : Bool :=
  match o with
  | some d => !d.isEmpty
  | Option.none => false

/-- An `HTTPException` as raised by the endpoints. -/
structure HTTPError where
  status_code : Nat
  detail : String
deriving DecidableEq, Repr

/-- One storage access, for the side-effect accounting of the spec. -/
inductive Effect where
  | read : Coll → Effect
  | write : Coll → Effect
deriving DecidableEq, Repr

/-- `CreateAppointmentRequest` (src/main.py lines 132-137). -/
structure CreateAppointmentRequest where
  user_id : String
  service_id : String
  service_title : String
  start_time_iso : String
  duration_minutes : Int
deriving DecidableEq, Repr

/-- The fields of `Appointment(...)` as constructed by
`create_appointment` (src/main.py lines 149-155): the five request fields
plus the schema defaults `status = "scheduled"` and `order_id = None`
(src/schemas.py lines 38-49), in declaration order. -/
def appointmentFields (req : CreateAppointmentRequest) :
    List (String × Value) :=
  [("user_id", Value.str req.user_id),
   ("service_id", Value.str req.service_id),
   ("service_title", Value.str req.service_title),
   ("start_time_iso", Value.str req.start_time_iso),
   ("duration_minutes", Value.int req.duration_minutes),
   ("status", Value.str "scheduled"),
   ("order_id", Value.none)]

/-- `create_appointment` (src/main.py lines 140-157): find any stored
appointment with the exact requested `start_time_iso`; on a hit raise 400
"Time slot already booked", otherwise persist the new appointment and
return its generated id.  The third component records the storage
accesses performed. -/
def create_appointment (req : CreateAppointmentRequest) (db : DB) :
    Except HTTPError String × DB × List Effect :=
  let conflict := find_one db Coll.appointment
    [("start_time_iso", Value.str req.start_time_iso)]
  if truthyDoc conflict then
    (Except.error ⟨400, "Time slot already booked"⟩, db,
      [Effect.read Coll.appointment])
  else
    let r := create_document db Coll.appointment (appointmentFields req)
    (Except.ok r.1, r.2,
      [Effect.read Coll.appointment, Effect.write Coll.appointment])

/-- The per-value effect of the datetime-rendering loop of `to_public`
(src/main.py lines 74-76): a datetime becomes its ISO string, everything
else is left alone. -/
def convVal : Value → Value
  | .dt t => .str (PyDateTime.isoformat t)
  | v => v

/-- `to_public` (src/main.py lines 67-77): copy the document, surface
`_id` as the string field `id`, then render every datetime value as its
ISO string. -/
def to_public (doc : Doc) : Doc :=
  if doc.isEmpty then doc
  else
    let d := doc
    let d := if dmem d "_id" then
        match dget d "_id" with
        | some v => dset (dremove d "_id") "id" (Value.str (pyStr v))
        | Option.none => d
      else d
    d.map (fun kv => (kv.1, convVal kv.2))

/-- `list_appointments` (src/main.py lines 160-164): optional `user_id`
query parameter; a present, non-empty value becomes an equality filter
(Python truthiness drops `None` and `""`), and the matching documents are
rendered with `to_public`. -/
def list_appointments (user_id : Option String) (db : DB) : List Doc :=
  let filt : Filter :=
    match user_id with
    | some uid => if uid = "" then [] else [("user_id", Value.str uid)]
    | Option.none => []
  (get_documents db Coll.appointment filt).map to_public

/-- `CheckoutRequest` (src/main.py lines 168-170). -/
structure CheckoutRequest where
  user_id : String
  items : List OrderItem
deriving DecidableEq, Repr

/-- The body returned by `create_checkout`. -/
structure CheckoutResponse where
  order_id : String
  amount_cents : Int
  stripe_checkout_url : Option String
deriving DecidableEq, Repr

/-- The fields of `Order(...)` as constructed by `create_checkout`
(src/main.py line 176) with the schema defaults `status = "pending"`,
`stripe_session_id = None`, `stripe_payment_intent = None`,
`paid_at = None` (src/schemas.py lines 57-68), in declaration order. -/
def orderFields (user_id : String) (items : List OrderItem)
    (amount : Int) : List (String × Value) :=
  [("user_id", Value.str user_id),
   ("items", Value.items items),
   ("amount_cents", Value.int amount),
   ("status", Value.str "pending"),
   ("stripe_session_id", Value.none),
   ("stripe_payment_intent", Value.none),
   ("paid_at", Value.none)]

/-- `create_checkout` (src/main.py lines 173-179): sum the items'
`price_cents * quantity`, persist an `Order` with that amount, and return
the order id, the amount and a `None` checkout URL. -/
def create_checkout (req : CheckoutRequest) (db : DB) :
    CheckoutResponse × DB :=
  let amount := (req.items.map (fun item => item.price_cents * item.quantity)).sum
  let r := create_document db Coll.order (orderFields req.user_id req.items amount)
  (⟨r.1, amount, Option.none⟩, r.2)

/-- The intended store invariant: any two stored appointments carrying the
same `start_time_iso` value are the same record. -/
def UniqueStart (l : List Doc) : Prop :=
  ∀ A ∈ l, ∀ B ∈ l, ∀ s : Value,
    dget A "start_time_iso" = some s → dget B "start_time_iso" = some s →
      A = B

/-- A serialized (non-concurrent) sequence of booking requests: each request
runs to completion against the database state left by the previous one. -/
def process_bookings (reqs : List CreateAppointmentRequest) (db : DB) : DB :=
  reqs.foldl (fun db req => (create_appointment req db).2.1) db

/-! ### Dictionary lemmas -/

lemma dget_ne_nil {d : Doc} {k : String} {v : Value} (h : dget d k = some v) :
    d ≠ [] := by
  intro he
  subst he
  simp [dget] at h

lemma dmem_eq_isSome (d : Doc) (k : String) : dmem d k = (dget d k).isSome := by
  induction d with
  | nil => rfl
  | cons kv rest ih =>
      obtain ⟨k', v⟩ := kv
      by_cases h : k' = k
      · simp [dmem, dget, h]
      · simp [dmem, dget, h, ih]

lemma dget_append (l m : Doc) (k : String) :
    dget (l ++ m) k = (dget l k).or (dget m k) := by
  induction l with
  | nil => simp [dget]
  | cons kv rest ih =>
      obtain ⟨k', v⟩ := kv
      by_cases h : k' = k
      · simp [dget, h]
      · simp [dget, h, ih]

lemma dremove_cons (k₀ : String) (v : Value) (rest : Doc) (k : String) :
    dremove ((k₀, v) :: rest) k =
      if k₀ = k then dremove rest k else (k₀, v) :: dremove rest k := by
  by_cases h : k₀ = k <;> simp [dremove, List.filter_cons, h]

lemma dget_dremove_ne (d : Doc) {k k' : String} (h : k' ≠ k) :
    dget (dremove d k) k' = dget d k' := by
  induction d with
  | nil => rfl
  | cons kv rest ih =>
      obtain ⟨k₀, v⟩ := kv
      by_cases hk : k₀ = k
      · subst hk
        rw [dremove_cons, if_pos rfl, ih]
        simp [dget, Ne.symm h]
      · rw [dremove_cons, if_neg hk]
        by_cases hk' : k₀ = k'
        · simp [dget, hk']
        · simp [dget, hk', ih]

lemma dget_dremove_self (d : Doc) (k : String) :
    dget (dremove d k) k = Option.none := by
  induction d with
  | nil => rfl
  | cons kv rest ih =>
      obtain ⟨k₀, v⟩ := kv
      by_cases hk : k₀ = k
      · rw [dremove_cons, if_pos hk]
        exact ih
      · rw [dremove_cons, if_neg hk]
        simp [dget, hk, ih]

lemma dget_map_conv (d : Doc) (k : String) :
    dget (d.map (fun kv => (kv.1, convVal kv.2))) k = (dget d k).map convVal := by
  induction d with
  | nil => rfl
  | cons kv rest ih =>
      obtain ⟨k₀, v⟩ := kv
      by_cases hk : k₀ = k
      · simp [dget, hk]
      · simp [dget, hk, ih]

lemma dset_append {d : Doc} {k : String} (v : Value) (h : dmem d k = false) :
    dset d k v = d ++ [(k, v)] := by
  simp [dset, h]

/-! ### Filter and find lemmas -/

lemma matchesFilter_nil (d : Doc) : matchesFilter [] d = true := rfl

lemma matchesFilter_singleton (k : String) (v : Value) (d : Doc) :
    matchesFilter [(k, v)] d = decide (dget d k = some v) := by
  simp [matchesFilter]

lemma truthy_find_one_singleton (db : DB) (c : Coll) (k : String) (v : Value) :
    truthyDoc (find_one db c [(k, v)]) = true ↔
      ∃ d ∈ db.coll c, dget d k = some v := by
  constructor
  · intro h
    cases hf : (db.coll c).find? (matchesFilter [(k, v)]) with
    | none =>
        rw [find_one, hf] at h
        simp [truthyDoc] at h
    | some d =>
        have hm := List.find?_some hf
        rw [matchesFilter_singleton] at hm
        exact ⟨d, List.mem_of_find?_eq_some hf, of_decide_eq_true hm⟩
  · rintro ⟨d, hd, hv⟩
    have hs : ((db.coll c).find? (matchesFilter [(k, v)])).isSome := by
      rw [List.find?_isSome]
      exact ⟨d, hd, by rw [matchesFilter_singleton]; exact decide_eq_true hv⟩
    cases hf : (db.coll c).find? (matchesFilter [(k, v)]) with
    | none => rw [hf] at hs; simp at hs
    | some d' =>
        have hm := List.find?_some hf
        rw [matchesFilter_singleton] at hm
        have hv' := of_decide_eq_true hm
        rw [find_one, hf]
        cases d' with
        | nil => simp [dget] at hv'
        | cons kv rest => simp [truthyDoc]

lemma not_truthy_find_one_singleton (db : DB) (c : Coll) (k : String) (v : Value) :
    truthyDoc (find_one db c [(k, v)]) = false ↔
      ∀ d ∈ db.coll c, dget d k ≠ some v := by
  rw [← Bool.not_eq_true, not_iff_comm, truthy_find_one_singleton]
  push_neg
  simp

/-! ### Reduction lemmas for the booking operation -/

lemma create_appointment_of_truthy (req : CreateAppointmentRequest) (db : DB)
    (h : truthyDoc (find_one db Coll.appointment
      [("start_time_iso", Value.str req.start_time_iso)]) = true) :
    create_appointment req db =
      (Except.error ⟨400, "Time slot already booked"⟩, db,
        [Effect.read Coll.appointment]) := by
  rw [create_appointment]
  simp [h]

lemma create_appointment_of_not_truthy (req : CreateAppointmentRequest) (db : DB)
    (h : truthyDoc (find_one db Coll.appointment
      [("start_time_iso", Value.str req.start_time_iso)]) = false) :
    create_appointment req db =
      (Except.ok (oidStr db.nextId),
        { db.insert Coll.appointment
            (("_id", Value.oid db.nextId) :: appointmentFields req) with
          nextId := db.nextId + 1 },
        [Effect.read Coll.appointment, Effect.write Coll.appointment]) := by
  rw [create_appointment]
  simp [h, create_document]

/-! ### Claims about the booking conflict check -/

/-- C1: if the appointment store already contains a record whose
`start_time_iso` is string-equal to the requested one, booking fails with
a 400 error "Time slot already booked" and the whole database — in
particular the appointment store — is returned unchanged. -/
theorem create_appointment_conflict (req : CreateAppointmentRequest) (db : DB)
    (h : ∃ d ∈ db.appointment,
      dget d "start_time_iso" = some (Value.str req.start_time_iso)) :
    (create_appointment req db).1 =
      Except.error ⟨400, "Time slot already booked"⟩ ∧
    (create_appointment req db).2.1 = db := by
  have ht : truthyDoc (find_one db Coll.appointment
      [("start_time_iso", Value.str req.start_time_iso)]) = true :=
    (truthy_find_one_singleton db Coll.appointment _ _).mpr h
  rw [create_appointment_of_truthy req db ht]
  exact ⟨rfl, rfl⟩

/-- Witness for C1: booking `"2024-01-01T10:00:00"` against a store that
already holds that exact slot fails and leaves the store as it was. -/
theorem create_appointment_conflict_witness :
    (∃ d ∈ (DB.mk [] [] [[("_id", Value.oid 0), ("user_id", Value.str "u1"),
        ("service_id", Value.str "s1"),
        ("service_title", Value.str "Therapy Session"),
        ("start_time_iso", Value.str "2024-01-01T10:00:00"),
        ("duration_minutes", Value.int 45), ("status", Value.str "scheduled"),
        ("order_id", Value.none)]] [] 1).appointment,
      dget d "start_time_iso" = some (Value.str "2024-01-01T10:00:00")) ∧
    (create_appointment ⟨"u2", "s1", "Therapy Session", "2024-01-01T10:00:00", 45⟩
        (DB.mk [] [] [[("_id", Value.oid 0), ("user_id", Value.str "u1"),
          ("service_id", Value.str "s1"),
          ("service_title", Value.str "Therapy Session"),
          ("start_time_iso", Value.str "2024-01-01T10:00:00"),
          ("duration_minutes", Value.int 45), ("status", Value.str "scheduled"),
          ("order_id", Value.none)]] [] 1)).1 =
      Except.error ⟨400, "Time slot already booked"⟩ ∧
    (create_appointment ⟨"u2", "s1", "Therapy Session", "2024-01-01T10:00:00", 45⟩
        (DB.mk [] [] [[("_id", Value.oid 0), ("user_id", Value.str "u1"),
          ("service_id", Value.str "s1"),
          ("service_title", Value.str "Therapy Session"),
          ("start_time_iso", Value.str "2024-01-01T10:00:00"),
          ("duration_minutes", Value.int 45), ("status", Value.str "scheduled"),
          ("order_id", Value.none)]] [] 1)).2.1 =
      DB.mk [] [] [[("_id", Value.oid 0), ("user_id", Value.str "u1"),
        ("service_id", Value.str "s1"),
        ("service_title", Value.str "Therapy Session"),
        ("start_time_iso", Value.str "2024-01-01T10:00:00"),
        ("duration_minutes", Value.int 45), ("status", Value.str "scheduled"),
        ("order_id", Value.none)]] [] 1 := by
  exact ⟨by decide, (create_appointment_conflict _ _ (by decide)).1,
    (create_appointment_conflict _ _ (by decide)).2⟩

/-- C2: if no stored appointment has the requested `start_time_iso`, booking
persists a new appointment record carrying exactly the request fields plus
`status = "scheduled"` and `order_id = None`, and returns the generated
identity of that record. -/
theorem create_appointment_success (req : CreateAppointmentRequest) (db : DB)
    (h : ∀ d ∈ db.appointment,
      dget d "start_time_iso" ≠ some (Value.str req.start_time_iso)) :
    (create_appointment req db).1 = Except.ok (oidStr db.nextId) ∧
    (create_appointment req db).2.1.appointment = db.appointment ++
      [[("_id", Value.oid db.nextId),
        ("user_id", Value.str req.user_id),
        ("service_id", Value.str req.service_id),
        ("service_title", Value.str req.service_title),
        ("start_time_iso", Value.str req.start_time_iso),
        ("duration_minutes", Value.int req.duration_minutes),
        ("status", Value.str "scheduled"),
        ("order_id", Value.none)]] := by
  have hf : truthyDoc (find_one db Coll.appointment
      [("start_time_iso", Value.str req.start_time_iso)]) = false :=
    (not_truthy_find_one_singleton db Coll.appointment _ _).mpr h
  rw [create_appointment_of_not_truthy req db hf]
  exact ⟨rfl, rfl⟩

/-- Witness for C2: booking into an empty store succeeds, returns the first
generated identity, and stores the scheduled appointment. -/
theorem create_appointment_success_witness :
    (∀ d ∈ (DB.mk [] [] [] [] 0).appointment,
      dget d "start_time_iso" ≠ some (Value.str "2024-01-01T10:00:00")) ∧
    (create_appointment ⟨"u1", "s1", "Therapy Session", "2024-01-01T10:00:00", 45⟩
        (DB.mk [] [] [] [] 0)).1 = Except.ok (oidStr 0) ∧
    (create_appointment ⟨"u1", "s1", "Therapy Session", "2024-01-01T10:00:00", 45⟩
        (DB.mk [] [] [] [] 0)).2.1.appointment = [] ++
      [[("_id", Value.oid 0),
        ("user_id", Value.str "u1"),
        ("service_id", Value.str "s1"),
        ("service_title", Value.str "Therapy Session"),
        ("start_time_iso", Value.str "2024-01-01T10:00:00"),
        ("duration_minutes", Value.int 45),
        ("status", Value.str "scheduled"),
        ("order_id", Value.none)]] := by
  refine ⟨by decide, ?_⟩
  exact create_appointment_success
    ⟨"u1", "s1", "Therapy Session", "2024-01-01T10:00:00", 45⟩
    (DB.mk [] [] [] [] 0) (by decide)

lemma unique_start_step (req : CreateAppointmentRequest) (db : DB)
    (h : UniqueStart db.appointment) :
    UniqueStart (create_appointment req db).2.1.appointment := by
  cases ht : truthyDoc (find_one db Coll.appointment
      [("start_time_iso", Value.str req.start_time_iso)]) with
  | true =>
      rw [create_appointment_of_truthy req db ht]
      exact h
  | false =>
      have hnone := (not_truthy_find_one_singleton db Coll.appointment _ _).mp ht
      rw [create_appointment_of_not_truthy req db ht]
      have hnew : dget (("_id", Value.oid db.nextId) :: appointmentFields req)
          "start_time_iso" = some (Value.str req.start_time_iso) := by
        simp [dget, appointmentFields]
      intro A hA B hB s hAs hBs
      have hA' : A ∈ db.appointment ++
          [("_id", Value.oid db.nextId) :: appointmentFields req] := hA
      have hB' : B ∈ db.appointment ++
          [("_id", Value.oid db.nextId) :: appointmentFields req] := hB
      rcases List.mem_append.mp hA' with hAo | hAn
      · rcases List.mem_append.mp hB' with hBo | hBn
        · exact h A hAo B hBo s hAs hBs
        · exfalso
          rw [List.mem_singleton] at hBn
          subst hBn
          rw [hnew] at hBs
          cases hBs
          exact hnone A hAo hAs
      · rw [List.mem_singleton] at hAn
        subst hAn
        rcases List.mem_append.mp hB' with hBo | hBn
        · exfalso
          rw [hnew] at hAs
          cases hAs
          exact hnone B hBo hBs
        · rw [List.mem_singleton] at hBn
          exact hBn.symm

/-- C3: starting from an appointment store in which any two records with
identical `start_time_iso` coincide, any serialized sequence of booking
operations preserves that invariant. -/
theorem serialized_bookings_unique_start (reqs : List CreateAppointmentRequest)
    (db : DB) (h : UniqueStart db.appointment) :
    UniqueStart (process_bookings reqs db).appointment := by
  induction reqs generalizing db with
  | nil => exact h
  | cons r rs ih =>
      rw [process_bookings, List.foldl_cons]
      exact ih _ (unique_start_step r db h)

/-- Witness for C3: from an empty store, serially booking the same slot
twice leaves a store in which any records sharing a start time coincide. -/
theorem serialized_bookings_unique_start_witness :
    UniqueStart (DB.mk [] [] [] [] 0).appointment ∧
    UniqueStart (process_bookings
      [⟨"u1", "s1", "Therapy Session", "2024-01-01T10:00:00", 45⟩,
       ⟨"u2", "s1", "Therapy Session", "2024-01-01T10:00:00", 60⟩]
      (DB.mk [] [] [] [] 0)).appointment := by
  constructor
  · intro A hA
    exact absurd hA (List.not_mem_nil A)
  · exact serialized_bookings_unique_start _ _
      (fun A hA => absurd hA (List.not_mem_nil A))

/-- C4: a booking fails if and only if some stored appointment carries the
identical `start_time_iso` string; in particular booking
`"2024-01-01T10:00:00"` and then `"2024-01-01T10:00:01"` (one second
apart, different durations) both succeed. -/
theorem conflict_iff_exact_string_match :
    (∀ (req : CreateAppointmentRequest) (db : DB),
      (∃ e, (create_appointment req db).1 = Except.error e) ↔
        ∃ d ∈ db.appointment,
          dget d "start_time_iso" = some (Value.str req.start_time_iso)) ∧
    (create_appointment ⟨"u1", "s1", "Therapy Session", "2024-01-01T10:00:00", 60⟩
        (DB.mk [] [] [] [] 0)).1.isOk = true ∧
    (create_appointment ⟨"u1", "s1", "Therapy Session", "2024-01-01T10:00:01", 30⟩
        (create_appointment
          ⟨"u1", "s1", "Therapy Session", "2024-01-01T10:00:00", 60⟩
          (DB.mk [] [] [] [] 0)).2.1).1.isOk = true := by
  refine ⟨fun req db => ⟨?_, ?_⟩, by decide, by decide⟩
  · rintro ⟨e, he⟩
    by_contra hc
    push_neg at hc
    have hf : truthyDoc (find_one db Coll.appointment
        [("start_time_iso", Value.str req.start_time_iso)]) = false :=
      (not_truthy_find_one_singleton db Coll.appointment _ _).mpr hc
    rw [create_appointment_of_not_truthy req db hf] at he
    exact Except.noConfusion he
  · intro hex
    have ht : truthyDoc (find_one db Coll.appointment
        [("start_time_iso", Value.str req.start_time_iso)]) = true :=
      (truthy_find_one_singleton db Coll.appointment _ _).mpr hex
    rw [create_appointment_of_truthy req db ht]
    exact ⟨_, rfl⟩

/-- C5: the conflict decision ignores `duration_minutes` — two requests
that agree on every other field either both fail with the conflict error
or both succeed against the same store. -/
theorem conflict_ignores_duration (r1 r2 : CreateAppointmentRequest) (db : DB)
    (_hu : r1.user_id = r2.user_id) (_hs : r1.service_id = r2.service_id)
    (_htt : r1.service_title = r2.service_title)
    (hst : r1.start_time_iso = r2.start_time_iso) :
    ((create_appointment r1 db).1 =
        Except.error ⟨400, "Time slot already booked"⟩ ↔
      (create_appointment r2 db).1 =
        Except.error ⟨400, "Time slot already booked"⟩) ∧
    (create_appointment r1 db).1.isOk = (create_appointment r2 db).1.isOk := by
  cases ht : truthyDoc (find_one db Coll.appointment
      [("start_time_iso", Value.str r2.start_time_iso)]) with
  | true =>
      have ht1 : truthyDoc (find_one db Coll.appointment
          [("start_time_iso", Value.str r1.start_time_iso)]) = true := by
        rw [hst]; exact ht
      rw [create_appointment_of_truthy r1 db ht1,
        create_appointment_of_truthy r2 db ht]
      exact ⟨Iff.rfl, rfl⟩
  | false =>
      have ht1 : truthyDoc (find_one db Coll.appointment
          [("start_time_iso", Value.str r1.start_time_iso)]) = false := by
        rw [hst]; exact ht
      rw [create_appointment_of_not_truthy r1 db ht1,
        create_appointment_of_not_truthy r2 db ht]
      exact ⟨by simp, rfl⟩

/-- Witness for C5: two requests for the same slot differing only in
duration (45 vs 240 minutes) receive the same conflict decision. -/
theorem conflict_ignores_duration_witness :
    ((create_appointment ⟨"u1", "s1", "Therapy Session", "2024-01-01T10:00:00", 45⟩
        (DB.mk [] [] [] [] 0)).1 =
        Except.error ⟨400, "Time slot already booked"⟩ ↔
      (create_appointment ⟨"u1", "s1", "Therapy Session", "2024-01-01T10:00:00", 240⟩
        (DB.mk [] [] [] [] 0)).1 =
        Except.error ⟨400, "Time slot already booked"⟩) ∧
    (create_appointment ⟨"u1", "s1", "Therapy Session", "2024-01-01T10:00:00", 45⟩
        (DB.mk [] [] [] [] 0)).1.isOk =
      (create_appointment ⟨"u1", "s1", "Therapy Session", "2024-01-01T10:00:00", 240⟩
        (DB.mk [] [] [] [] 0)).1.isOk :=
  conflict_ignores_duration
    ⟨"u1", "s1", "Therapy Session", "2024-01-01T10:00:00", 45⟩
    ⟨"u1", "s1", "Therapy Session", "2024-01-01T10:00:00", 240⟩
    (DB.mk [] [] [] [] 0) rfl rfl rfl rfl

lemma get_documents_nil_filter (db : DB) (c : Coll) :
    get_documents db c [] = db.coll c := by
  rw [get_documents]
  apply List.filter_eq_self.mpr
  intro a _
  rfl

/-- Counterexample to C6 as stated: filtering by the empty-string user id
returns a stored appointment whose `user_id` is `"u1"`, not the empty
string, because Python truthiness drops the empty filter value. -/
theorem list_appointments_empty_filter_counterexample :
    list_appointments (some "") (DB.mk [] []
        [[("_id", Value.oid 0), ("user_id", Value.str "u1"),
          ("start_time_iso", Value.str "2024-01-01T10:00:00")]] [] 1) =
      [[("user_id", Value.str "u1"),
        ("start_time_iso", Value.str "2024-01-01T10:00:00"),
        ("id", Value.str "0")]] ∧
    dget [("user_id", Value.str "u1"),
        ("start_time_iso", Value.str "2024-01-01T10:00:00"),
        ("id", Value.str "0")] "user_id" ≠ some (Value.str "") := by
  exact ⟨by decide, by decide⟩

/-- C6 (amended): listing with a non-empty `user_id` filter returns exactly
the stored appointments whose `user_id` equals the given value, rendered
with `to_public`; listing without the filter returns all of them. -/
theorem list_appointments_filter_semantics (uid : String) (db : DB)
    (h : uid ≠ "") :
    list_appointments (some uid) db =
      (db.appointment.filter
        (fun d => decide (dget d "user_id" = some (Value.str uid)))).map
          to_public ∧
    list_appointments Option.none db = db.appointment.map to_public := by
  constructor
  · rw [list_appointments]
    simp only [if_neg h]
    rw [get_documents]
    congr 1
    apply List.filter_congr
    intro d _
    rw [matchesFilter_singleton]
  · rw [list_appointments, get_documents_nil_filter]
    rfl

/-- Witness for C6 (amended): filtering a two-user store by `"u1"` keeps
only the `"u1"` appointment; listing without a filter returns both. -/
theorem list_appointments_filter_semantics_witness :
    "u1" ≠ "" ∧
    (list_appointments (some "u1") (DB.mk [] []
        [[("_id", Value.oid 0), ("user_id", Value.str "u1"),
          ("start_time_iso", Value.str "2024-01-01T10:00:00")],
         [("_id", Value.oid 1), ("user_id", Value.str "u2"),
          ("start_time_iso", Value.str "2024-01-02T10:00:00")]] [] 2) =
      ((DB.mk [] []
        [[("_id", Value.oid 0), ("user_id", Value.str "u1"),
          ("start_time_iso", Value.str "2024-01-01T10:00:00")],
         [("_id", Value.oid 1), ("user_id", Value.str "u2"),
          ("start_time_iso", Value.str "2024-01-02T10:00:00")]] [] 2).appointment.filter
        (fun d => decide (dget d "user_id" = some (Value.str "u1")))).map
          to_public ∧
    list_appointments Option.none (DB.mk [] []
        [[("_id", Value.oid 0), ("user_id", Value.str "u1"),
          ("start_time_iso", Value.str "2024-01-01T10:00:00")],
         [("_id", Value.oid 1), ("user_id", Value.str "u2"),
          ("start_time_iso", Value.str "2024-01-02T10:00:00")]] [] 2) =
      (DB.mk [] []
        [[("_id", Value.oid 0), ("user_id", Value.str "u1"),
          ("start_time_iso", Value.str "2024-01-01T10:00:00")],
         [("_id", Value.oid 1), ("user_id", Value.str "u2"),
          ("start_time_iso", Value.str "2024-01-02T10:00:00")]] [] 2).appointment.map
          to_public) :=
  ⟨by decide, list_appointments_filter_semantics "u1" _ (by decide)⟩

/-- C7: one booking call reads the appointment store exactly once and
writes it at most once — a single insert on success, nothing on conflict —
and never touches the user, service or order collections nor any
pre-existing appointment record. -/
theorem create_appointment_frame (req : CreateAppointmentRequest) (db : DB) :
    (((create_appointment req db).1.isOk = false ∧
      (create_appointment req db).2.2 = [Effect.read Coll.appointment] ∧
      (create_appointment req db).2.1 = db) ∨
     ((create_appointment req db).1.isOk = true ∧
      (create_appointment req db).2.2 =
        [Effect.read Coll.appointment, Effect.write Coll.appointment] ∧
      (create_appointment req db).2.1.appointment =
        db.appointment ++
          [("_id", Value.oid db.nextId) :: appointmentFields req])) ∧
    (create_appointment req db).2.1.user = db.user ∧
    (create_appointment req db).2.1.service = db.service ∧
    (create_appointment req db).2.1.order = db.order := by
  cases ht : truthyDoc (find_one db Coll.appointment
      [("start_time_iso", Value.str req.start_time_iso)]) with
  | true =>
      rw [create_appointment_of_truthy req db ht]
      exact ⟨Or.inl ⟨rfl, rfl, rfl⟩, rfl, rfl, rfl⟩
  | false =>
      rw [create_appointment_of_not_truthy req db ht]
      exact ⟨Or.inr ⟨rfl, rfl, rfl⟩, rfl, rfl, rfl⟩

/-- C9: an empty-string `user_id` is falsy in Python, so it is treated as
an absent filter and the listing returns every stored appointment. -/
theorem empty_user_id_filter_returns_all (db : DB) :
    list_appointments (some "") db = list_appointments Option.none db ∧
    list_appointments (some "") db = db.appointment.map to_public := by
  refine ⟨rfl, ?_⟩
  show List.map to_public (get_documents db Coll.appointment []) =
    List.map to_public db.appointment
  rw [get_documents_nil_filter]
  rfl

/-- C10: a checkout returns and persists an `amount_cents` equal to the
exact integer sum of `price_cents * quantity` over the request items, and
the persisted order has `status = "pending"` and `paid_at = None`. -/
theorem checkout_amount_and_defaults (req : CheckoutRequest) (db : DB) :
    (create_checkout req db).1.amount_cents =
      (req.items.map (fun item => item.price_cents * item.quantity)).sum ∧
    (create_checkout req db).1.order_id = oidStr db.nextId ∧
    (create_checkout req db).2.order = db.order ++
      [("_id", Value.oid db.nextId) :: orderFields req.user_id req.items
        ((req.items.map (fun item => item.price_cents * item.quantity)).sum)] ∧
    dget (("_id", Value.oid db.nextId) :: orderFields req.user_id req.items
        ((req.items.map (fun item => item.price_cents * item.quantity)).sum))
      "amount_cents" = some (Value.int
        ((req.items.map (fun item => item.price_cents * item.quantity)).sum)) ∧
    dget (("_id", Value.oid db.nextId) :: orderFields req.user_id req.items
        ((req.items.map (fun item => item.price_cents * item.quantity)).sum))
      "status" = some (Value.str "pending") ∧
    dget (("_id", Value.oid db.nextId) :: orderFields req.user_id req.items
        ((req.items.map (fun item => item.price_cents * item.quantity)).sum))
      "paid_at" = some Value.none :=
  ⟨rfl, rfl, rfl, rfl, rfl, rfl⟩

lemma list_appointments_shape (uid : Option String) (db : DB) :
    ∃ filt, list_appointments uid db =
      (get_documents db Coll.appointment filt).map to_public := by
  cases uid with
  | none => exact ⟨[], rfl⟩
  | some u =>
      by_cases hu : u = ""
      · subst hu
        exact ⟨[], rfl⟩
      · refine ⟨[("user_id", Value.str u)], ?_⟩
        rw [list_appointments]
        simp only [if_neg hu]

lemma to_public_spec (d : Doc) (n : Nat)
    (hid : dget d "_id" = some (Value.oid n))
    (hno : dget d "id" = Option.none) :
    dget (to_public d) "id" = some (Value.str (oidStr n)) ∧
    dget (to_public d) "_id" = Option.none ∧
    ∀ (k : String) (t : PyDateTime), dget d k = some (Value.dt t) →
      dget (to_public d) k = some (Value.str (PyDateTime.isoformat t)) := by
  have hne : d ≠ [] := dget_ne_nil hid
  have hisE : d.isEmpty = false := by
    cases d with
    | nil => exact absurd rfl hne
    | cons a l => rfl
  have hmem : dmem d "_id" = true := by
    rw [dmem_eq_isSome, hid]
    rfl
  have hnomem : dmem (dremove d "_id") "id" = false := by
    rw [dmem_eq_isSome, dget_dremove_ne d (by decide), hno]
    rfl
  have hstep : to_public d =
      (dremove d "_id" ++ [("id", Value.str (oidStr n))]).map
        (fun kv => (kv.1, convVal kv.2)) := by
    rw [to_public]
    simp only [hisE, Bool.false_eq_true, if_false, hmem, if_true, hid, pyStr]
    rw [dset_append _ hnomem]
  refine ⟨?_, ?_, ?_⟩
  · rw [hstep, dget_map_conv, dget_append, dget_dremove_ne d (by decide), hno]
    rfl
  · rw [hstep, dget_map_conv, dget_append, dget_dremove_self]
    rfl
  · intro k t hkt
    have hk1 : k ≠ "_id" := by
      intro he
      subst he
      rw [hid] at hkt
      cases hkt
    rw [hstep, dget_map_conv, dget_append, dget_dremove_ne d hk1, hkt]
    rfl

/-- C8: every record produced by the appointment listing endpoint carries
the stored identity as the plain string field `id`, no longer exposes
`_id`, and renders every stored datetime-valued field as its ISO-8601
string. -/
theorem listing_renders_public_records (uid : Option String) (db : DB)
    (h : ∀ d ∈ db.appointment,
      (∃ n, dget d "_id" = some (Value.oid n)) ∧ dget d "id" = Option.none) :
    ∀ r ∈ list_appointments uid db, ∃ d ∈ db.appointment,
      r = to_public d ∧
      (∃ n, dget d "_id" = some (Value.oid n) ∧
        dget r "id" = some (Value.str (oidStr n))) ∧
      dget r "_id" = Option.none ∧
      ∀ (k : String) (t : PyDateTime), dget d k = some (Value.dt t) →
        dget r k = some (Value.str (PyDateTime.isoformat t)) := by
  intro r hr
  obtain ⟨filt, hf⟩ := list_appointments_shape uid db
  rw [hf] at hr
  obtain ⟨d, hd, rfl⟩ := List.mem_map.mp hr
  rw [get_documents] at hd
  have hdmem : d ∈ db.appointment := List.mem_of_mem_filter hd
  obtain ⟨⟨n, hid⟩, hno⟩ := h d hdmem
  obtain ⟨h1, h2, h3⟩ := to_public_spec d n hid hno
  exact ⟨d, hdmem, rfl, ⟨n, hid, h1⟩, h2, h3⟩

/-- Witness for C8: listing a store holding one appointment document that
carries an ObjectId and a datetime field yields a record with `id = "7"`,
no `_id`, and the datetime rendered as `"2024-01-02T03:04:05"`. -/
theorem listing_renders_public_records_witness :
    (∀ d ∈ (DB.mk [] [] [[("_id", Value.oid 7), ("user_id", Value.str "u1"),
        ("created_at", Value.dt ⟨2024, 1, 2, 3, 4, 5⟩)]] [] 8).appointment,
      (∃ n, dget d "_id" = some (Value.oid n)) ∧
        dget d "id" = Option.none) ∧
    (∀ r ∈ list_appointments Option.none (DB.mk [] []
        [[("_id", Value.oid 7), ("user_id", Value.str "u1"),
          ("created_at", Value.dt ⟨2024, 1, 2, 3, 4, 5⟩)]] [] 8),
      ∃ d ∈ (DB.mk [] [] [[("_id", Value.oid 7), ("user_id", Value.str "u1"),
          ("created_at", Value.dt ⟨2024, 1, 2, 3, 4, 5⟩)]] [] 8).appointment,
        r = to_public d ∧
        (∃ n, dget d "_id" = some (Value.oid n) ∧
          dget r "id" = some (Value.str (oidStr n))) ∧
        dget r "_id" = Option.none ∧
        ∀ (k : String) (t : PyDateTime), dget d k = some (Value.dt t) →
          dget r k = some (Value.str (PyDateTime.isoformat t))) := by
  have h : ∀ d ∈ (DB.mk [] [] [[("_id", Value.oid 7),
      ("user_id", Value.str "u1"),
      ("created_at", Value.dt ⟨2024, 1, 2, 3, 4, 5⟩)]] [] 8).appointment,
      (∃ n, dget d "_id" = some (Value.oid n)) ∧
        dget d "id" = Option.none := by
    intro d hd
    have hd' : d ∈ [[("_id", Value.oid 7), ("user_id", Value.str "u1"),
        ("created_at", Value.dt ⟨2024, 1, 2, 3, 4, 5⟩)]] := hd
    rw [List.mem_singleton] at hd'
    subst hd'
    exact ⟨⟨7, rfl⟩, rfl⟩
  exact ⟨h, listing_renders_public_records Option.none _ h⟩

end Booking
